import Mathlib

/-!
Verification of the Credential & Token Security subsystem
(user_credentials.py, authentication_token.py,
authentication_token_repository.py, authentication_service.py).

Shallow embedding conventions:
* Timestamps are integers (seconds); `datetime.now(timezone.utc)` becomes an
  explicit `now : Int` parameter threaded through each call.
  `timedelta(minutes=30)` becomes `30 * 60` seconds.
* Python methods mutating `self` become functions returning the updated
  record; a method that may raise returns an `Except`/pair carrying the
  record state at the point the exception escapes (Python leaves the object
  in that state).
* `bcrypt.checkpw` and `hashlib.sha256(...).hexdigest()` are external
  one-way functions; they are taken as parameters
  (`checkpw : String → String → Bool`, `h : String → String`) so every
  theorem holds for any choice of hash function.
* The in-memory repositories store object references, so a mutation of a
  loaded entity is immediately visible in the store; this is modelled by
  writing the updated record back into the store list at that point.
-/

namespace AiDlc

/-- Python `str.lower()`, modelled over the character list. -/
def py_lower (s : String) : String := ⟨s.data.map Char.toLower⟩

/-- Python `str.strip()`: remove leading and trailing whitespace. -/
def py_strip (s : String) : String :=
  ⟨((s.data.dropWhile Char.isWhitespace).reverse.dropWhile Char.isWhitespace).reverse⟩

/-! ## UserCredentials (src/user_credentials.py) -/

/-- Security constant `MAX_FAILED_ATTEMPTS = 5`. -/
def MAX_FAILED_ATTEMPTS : Nat := 5

/-- `LOCKOUT_DURATION_MINUTES = 30`, converted to seconds
(`timedelta(minutes=30)`). -/
def LOCKOUT_DURATION_SECONDS : Int := 30 * 60

/-- State of a `UserCredentials` entity (the fields read or written by
`verify_password` and its helpers, plus the identity and flags used by the
authentication service). -/
structure UserCredentials where
  user_id : String
  password_hash : String
  failed_login_attempts : Nat
  account_locked_until : Option Int
  must_change_password : Bool
  updated_at : Int
  deriving Repr, DecidableEq

/-- Errors raised by credential operations (`AccountLockedException`). -/
inductive CredError where
  | accountLocked
  deriving Repr, DecidableEq

/-- `_increment_failed_attempts`: bump the counter, lock when the counter
reaches `MAX_FAILED_ATTEMPTS`, and touch `updated_at`. -/
def increment_failed_attempts (now : Int) (c : UserCredentials) : UserCredentials :=
  let c := { c with failed_login_attempts := c.failed_login_attempts + 1 }
  let c :=
    if c.failed_login_attempts ≥ MAX_FAILED_ATTEMPTS then
      { c with account_locked_until := some (now + LOCKOUT_DURATION_SECONDS) }
    else c
  { c with updated_at := now }

/-- `_reset_failed_attempts`: clear the counter and the lockout expiry, and
touch `updated_at`. -/
def reset_failed_attempts (now : Int) (c : UserCredentials) : UserCredentials :=
  { c with failed_login_attempts := 0, account_locked_until := none, updated_at := now }

/-- `is_account_locked`: reports whether the account is locked at `now`.
When the lockout window has elapsed it lazily resets the counter, so the
(possibly updated) record is returned alongside the answer. -/
def is_account_locked (now : Int) (c : UserCredentials) : Bool × UserCredentials :=
  match c.account_locked_until with
  | none => (false, c)
  | some u =>
    if now ≥ u then (false, reset_failed_attempts now c)
    else (true, c)

/-- `verify_password`: raise `AccountLockedException` while locked, return
`false` for an empty password without touching the record, otherwise check
the password with bcrypt, resetting the counter on success and incrementing
it on failure.  (The `except Exception` branch of the source, reachable
only when `bcrypt.checkpw` itself raises, also increments and returns
`False`; `checkpw` is total here, so that branch has no separate model.)
The record state is returned in both the normal and the raising case. -/
def verify_password (checkpw : String → String → Bool) (now : Int)
    (c : UserCredentials) (password : String) :
    Except CredError Bool × UserCredentials :=
  let (locked, c) := is_account_locked now c
  if locked then (.error .accountLocked, c)
  else if password = "" then (.ok false, c)
  else if checkpw password c.password_hash then (.ok true, reset_failed_attempts now c)
  else (.ok false, increment_failed_attempts now c)

/-! ## AuthenticationToken (src/authentication_token.py) -/

/-- `ACCESS_TOKEN_EXPIRY_HOURS = 24`, converted to seconds. -/
def ACCESS_TOKEN_EXPIRY_SECONDS : Int := 24 * 3600

/-- State of an `AuthenticationToken` entity. -/
structure AuthenticationToken where
  id : String
  user_id : String
  token_hash : String
  expires_at : Int
  is_revoked : Bool
  revoked_at : Option Int
  revoked_reason : Option String
  updated_at : Int
  deriving Repr, DecidableEq

/-- Errors raised by token operations: `RevokedTokenException` (carrying the
stored revocation reason) and `ValidationException` (carrying the message). -/
inductive TokenError where
  | revokedToken (reason : Option String)
  | validationError (msg : String)
  deriving Repr, DecidableEq

/-- `_hash_token`: reject an empty token (`ValidationException`), otherwise
return the SHA-256 hex digest — here the abstract hash `h` applied to the
token string. -/
def hash_token (h : String → String) (token : String) : Except TokenError String :=
  if token = "" then .error (.validationError "Token is required")
  else .ok (h token)

/-- `is_expired`: `now ≥ expires_at`. -/
def is_expired (now : Int) (t : AuthenticationToken) : Bool :=
  now ≥ t.expires_at

/-- `is_valid`: not revoked and not yet expired. -/
def is_valid (now : Int) (t : AuthenticationToken) : Bool :=
  if t.is_revoked then false else decide (now < t.expires_at)

/-- `verify_token`: raise `RevokedTokenException` if revoked, return `false`
if expired, otherwise compare the hash of the presented token with the
stored hash (hashing an empty presented token raises
`ValidationException`). The record itself is not mutated. -/
def verify_token (h : String → String) (now : Int)
    (t : AuthenticationToken) (token : String) : Except TokenError Bool :=
  if t.is_revoked then .error (.revokedToken t.revoked_reason)
  else if is_expired now t then .ok false
  else do
    let th ← hash_token h token
    return th == t.token_hash

/-- `revoke`: a no-op when already revoked, otherwise set the revocation
flag, timestamp and reason, and touch `updated_at`. -/
def revoke (now : Int) (reason : String) (t : AuthenticationToken) : AuthenticationToken :=
  if t.is_revoked then t
  else { t with is_revoked := true, revoked_at := some now,
                revoked_reason := some reason, updated_at := now }

/-- `extend_expiry`: raise `ValidationException` on a revoked token (record
unchanged), otherwise add `additional_time` to `expires_at` and touch
`updated_at`.  The record state is returned in both cases. -/
def extend_expiry (now additional_time : Int) (t : AuthenticationToken) :
    Except TokenError Unit × AuthenticationToken :=
  if t.is_revoked then
    (.error (.validationError "Cannot extend expiry of revoked token"), t)
  else
    (.ok (), { t with expires_at := t.expires_at + additional_time, updated_at := now })

/-! ## AuthenticationTokenRepository (src/authentication_token_repository.py)

The in-memory store is a list of token records; the Python `dict` keyed by
entity id makes the ids pairwise distinct, which theorems state as a
`Nodup` hypothesis. -/

/-- `InMemoryRepository.save`: if a record with this id is already stored,
touch its `updated_at` and replace it; otherwise append the record. -/
def save_token (now : Int) (t : AuthenticationToken)
    (store : List AuthenticationToken) : List AuthenticationToken :=
  if store.any (fun s => s.id == t.id) then
    store.map (fun s => if s.id == t.id then { t with updated_at := now } else s)
  else
    store ++ [t]

/-- `find_by_token_hash`: first stored record whose hash equals the
(stripped) given hash; `None` for an empty hash. -/
def find_by_token_hash (token_hash : String)
    (store : List AuthenticationToken) : Option AuthenticationToken :=
  if token_hash = "" then none
  else store.find? (fun t => t.token_hash == py_strip token_hash)

/-- `find_by_user_id`: all records whose `user_id` equals the stripped
given id; empty for an empty id. -/
def find_by_user_id (user_id : String)
    (store : List AuthenticationToken) : List AuthenticationToken :=
  if user_id = "" then []
  else store.filter (fun t => t.user_id == py_strip user_id)

/-- `find_valid_tokens_by_user`: the user's records that are valid at
`now` (not revoked, not expired). -/
def find_valid_tokens_by_user (now : Int) (user_id : String)
    (store : List AuthenticationToken) : List AuthenticationToken :=
  (find_by_user_id user_id store).filter (fun t => is_valid now t)

/-- `revoke_user_tokens`: revoke each currently-valid token of the user,
saving it back, and return the number revoked together with the updated
store. -/
def revoke_user_tokens (now : Int) (user_id reason : String)
    (store : List AuthenticationToken) : Nat × List AuthenticationToken :=
  (find_valid_tokens_by_user now user_id store).foldl
    (fun acc t => (acc.1 + 1, save_token now (revoke now reason t) acc.2))
    (0, store)

/-! ## User (src/user.py) and AuthenticationService (src/authentication_service.py) -/

/-- The fields of a `User` entity read or written by the authentication
service (`role.value` is modelled as the string it unwraps to). -/
structure User where
  id : String
  email : String
  name : String
  role : String
  is_active : Bool
  last_login_at : Option Int
  updated_at : Int
  deriving Repr, DecidableEq

/-- `User.update_last_login`: set `last_login_at` to the current time and
touch `updated_at`. -/
def update_last_login (now : Int) (u : User) : User :=
  { u with last_login_at := some now, updated_at := now }

/-- The stores the service orchestrates.  `audits` counts the audit records
appended so far (the service only ever appends). -/
structure ServiceState where
  users : List User
  creds : List UserCredentials
  tokens : List AuthenticationToken
  audits : Nat
  deriving Repr, DecidableEq

/-- The result bundle returned by a successful `authenticate_user`. -/
structure AuthResult where
  user_id : String
  email : String
  name : String
  role : String
  access_token : String
  token_expires_at : Int
  must_change_password : Bool
  last_login_at : Option Int
  deriving Repr, DecidableEq

/-- The exceptions `authenticate_user` lets escape. -/
inductive AuthError where
  | invalidCredentials
  | accountLocked
  | accountNotActivated
  | internalError
  deriving Repr, DecidableEq

/-- `UserRepository.find_by_email`: case-insensitive lookup, `None` for an
empty email. -/
def find_user_by_email (email : String) (users : List User) : Option User :=
  if email = "" then none
  else users.find? (fun u => u.email == py_strip (py_lower email))

/-- `UserCredentialsRepository.find_by_user_id`. -/
def find_cred_by_user_id (user_id : String) (creds : List UserCredentials) :
    Option UserCredentials :=
  if user_id = "" then none
  else creds.find? (fun c => c.user_id == py_strip user_id)

/-- The in-memory credentials store holds the same object the service
mutates through `verify_password`; writing the updated record back over the
entry with the same `user_id` (one credential record per user) models that
aliasing. -/
def store_cred (c : UserCredentials) (creds : List UserCredentials) :
    List UserCredentials :=
  creds.map (fun s => if s.user_id == c.user_id then c else s)

/-- `UserRepository.save` for a user already present: touch `updated_at`
(same `now` as the mutation, hence a no-op here) and store it back. -/
def store_user (u : User) (users : List User) : List User :=
  users.map (fun s => if s.id == u.id then u else s)

/-- `_log_authentication_event`: build a login audit record and save it;
a failing save is caught inside the helper, logged and swallowed, so the
operation's outcome never depends on it. -/
def log_auth_event (auditFails : Bool) (st : ServiceState) : ServiceState :=
  if auditFails then st else { st with audits := st.audits + 1 }

/-- `AuthenticationService.authenticate_user`.  Parameters standing for the
environment: `checkpw`/`h` the bcrypt check and SHA-256 hash, `genTok` the
JWT string `_generate_jwt_token` produces for this user, `tokId` the fresh
UUID of the new token record, `auditFails` whether the audit store's save
raises on this call.  Every failure path audits through the swallowing
`log_auth_event`; a `ValidationException` out of the `AuthenticationToken`
constructor (empty `genTok`) is caught by the generic handler and
re-raised as the internal error. -/
def authenticate_user (checkpw : String → String → Bool) (h : String → String)
    (genTok tokId : String) (auditFails : Bool) (now : Int)
    (email password : String) (st : ServiceState) :
    Except AuthError AuthResult × ServiceState :=
  match find_user_by_email email st.users with
  | none => (.error .invalidCredentials, log_auth_event auditFails st)
  | some user =>
    if !user.is_active then
      (.error .accountNotActivated, log_auth_event auditFails st)
    else
      match find_cred_by_user_id user.id st.creds with
      | none => (.error .invalidCredentials, log_auth_event auditFails st)
      | some cred =>
        match verify_password checkpw now cred password with
        | (.error .accountLocked, cred2) =>
          (.error .accountLocked,
           log_auth_event auditFails { st with creds := store_cred cred2 st.creds })
        | (.ok false, cred2) =>
          (.error .invalidCredentials,
           log_auth_event auditFails { st with creds := store_cred cred2 st.creds })
        | (.ok true, cred2) =>
          if genTok = "" then
            (.error .internalError,
             log_auth_event auditFails { st with creds := store_cred cred2 st.creds })
          else
            let stA := { st with creds := store_cred cred2 st.creds }
            let tokRec : AuthenticationToken :=
              { id := tokId, user_id := user.id, token_hash := h genTok,
                expires_at := now + ACCESS_TOKEN_EXPIRY_SECONDS,
                is_revoked := false, revoked_at := none, revoked_reason := none,
                updated_at := now }
            let stB := { stA with tokens := save_token now tokRec stA.tokens }
            let user2 := update_last_login now user
            let stC := { stB with users := store_user user2 stB.users }
            (.ok { user_id := user2.id, email := user2.email, name := user2.name,
                   role := user2.role, access_token := genTok,
                   token_expires_at := tokRec.expires_at,
                   must_change_password := cred2.must_change_password,
                   last_login_at := user2.last_login_at },
             log_auth_event auditFails stC)

/-- The information `validate_token` returns on success. -/
structure TokenInfo where
  user_id : String
  email : String
  name : String
  role : String
  token_id : String
  expires_at : Int
  deriving Repr, DecidableEq

/-- `AuthenticationService.validate_token`.  `ValidationException` messages
are the error strings; a `RevokedTokenException` out of `verify_token` hits
the generic handler and becomes "Token validation failed". -/
def validate_token (h : String → String) (now : Int) (token : String)
    (st : ServiceState) : Except String TokenInfo :=
  if token = "" then .error "Token is required"
  else
    match find_by_token_hash (h token) st.tokens with
    | none => .error "Invalid token"
    | some tr =>
      match verify_token h now tr token with
      | .error _ => .error "Token validation failed"
      | .ok false => .error "Token validation failed"
      | .ok true =>
        match st.users.find? (fun u => u.id == tr.user_id) with
        | none => .error "User not found for token"
        | some u =>
          if !u.is_active then .error "User account is not active"
          else .ok { user_id := u.id, email := u.email, name := u.name,
                     role := u.role, token_id := tr.id,
                     expires_at := tr.expires_at }

/-- `AuthenticationService.logout_user`: validate the token (propagating
validation errors unchanged), revoke the matching record, then save one
audit record directly — a failing audit save is caught by the operation's
generic handler and re-raised as `ValidationException("Logout failed due
to internal error")`, after the revocation has already been persisted. -/
def logout_user (h : String → String) (auditFails : Bool) (now : Int)
    (token : String) (st : ServiceState) : Except String Unit × ServiceState :=
  match validate_token h now token st with
  | .error e => (.error e, st)
  | .ok _ =>
    let st :=
      match find_by_token_hash (h token) st.tokens with
      | none => st
      | some tr => { st with tokens := save_token now (revoke now "User logout" tr) st.tokens }
    if auditFails then (.error "Logout failed due to internal error", st)
    else (.ok (), { st with audits := st.audits + 1 })

/-- `AuthenticationService.revoke_all_user_tokens`: bulk-revoke, then save
one audit record with no surrounding handler — if the audit save raises,
the exception escapes the operation as-is (modelled as `.error ()`), the
revocations having already been persisted. -/
def revoke_all_user_tokens (auditFails : Bool) (now : Int)
    (user_id reason : String) (st : ServiceState) :
    Except Unit Nat × ServiceState :=
  let rc := revoke_user_tokens now user_id reason st.tokens
  let st := { st with tokens := rc.2 }
  if auditFails then (.error (), st)
  else (.ok rc.1, { st with audits := st.audits + 1 })

/-! ## Derived forms used in theorem statements -/

/-- The credential state after a sequence of `verify_password` calls, one
per `(time, password)` pair. -/
def fold_verifies (checkpw : String → String → Bool)
    (steps : List (Int × String)) (c : UserCredentials) : UserCredentials :=
  steps.foldl (fun c s => (verify_password checkpw s.1 c s.2).2) c

end AiDlc

namespace AiDlc

/-! ## Helper lemmas about the token repository -/

theorem revoke_id (now : Int) (reason : String) (t : AuthenticationToken) :
    (revoke now reason t).id = t.id := by
  unfold revoke
  split <;> rfl

theorem save_token_of_mem (now : Int) (t : AuthenticationToken)
    (store : List AuthenticationToken)
    (hmem : store.any (fun s => s.id == t.id) = true) :
    save_token now t store
      = store.map (fun s => if s.id == t.id then { t with updated_at := now } else s) := by
  simp only [save_token, hmem, if_pos]

/-- Splitting the counting fold of `revoke_user_tokens` into the count and
the store it produces. -/
theorem revoke_fold_split (now : Int) (reason : String)
    (l : List AuthenticationToken) (n : Nat) (s : List AuthenticationToken) :
    l.foldl (fun acc t => (acc.1 + 1, save_token now (revoke now reason t) acc.2)) (n, s)
      = (n + l.length, l.foldl (fun s2 t => save_token now (revoke now reason t) s2) s) := by
  induction l generalizing n s with
  | nil => simp
  | cons t l ih =>
    simp only [List.foldl_cons, List.length_cons, ih]
    simp only [Prod.mk.injEq, and_true]
    omega

/-- Saving `g t` for each `t` of a duplicate-free selection `l` of a
duplicate-free store replaces exactly the selected entries by their images
under `g` and touches nothing else. -/
theorem foldl_save_eq_map (now : Int)
    (g : AuthenticationToken → AuthenticationToken)
    (hg : ∀ t, (g t).id = t.id)
    (l : List AuthenticationToken) :
    ∀ store : List AuthenticationToken,
      (store.map (fun t => t.id)).Nodup →
      (l.map (fun t => t.id)).Nodup →
      (∀ t ∈ l, t ∈ store) →
      (∀ t ∈ l, { g t with updated_at := now } = g t) →
      l.foldl (fun s t => save_token now (g t) s) store
        = store.map (fun t => if l.any (fun u => u.id == t.id) then g t else t) := by
  induction l with
  | nil =>
    intro store _ _ _ _
    simp
  | cons t l ih =>
    intro store hstore hnd hsub hstable
    have htmem : t ∈ store := hsub t (List.mem_cons_self t l)
    have hany : store.any (fun s => s.id == (g t).id) = true := by
      rw [List.any_eq_true]
      exact ⟨t, htmem, by simp [hg]⟩
    have hrepl : save_token now (g t) store
        = store.map (fun s => if s.id == t.id then g t else s) := by
      rw [save_token_of_mem now (g t) store hany]
      have hcnd : ∀ s : AuthenticationToken, (s.id == (g t).id) = (s.id == t.id) := by
        intro s
        rw [hg]
      apply List.map_congr_left
      intro s _
      rw [hcnd]
      split
      · exact hstable t (List.mem_cons_self t l)
      · rfl
    have hndl : (l.map (fun u => u.id)).Nodup := (List.nodup_cons.mp hnd).2
    have htid : t.id ∉ l.map (fun u => u.id) := (List.nodup_cons.mp hnd).1
    have hlid : ∀ u ∈ l, u.id ≠ t.id := by
      intro u hu he
      exact htid (he ▸ List.mem_map_of_mem (fun x => x.id) hu)
    have hids2 : (store.map (fun s => if s.id == t.id then g t else s)).map (fun u => u.id)
        = store.map (fun u => u.id) := by
      rw [List.map_map]
      apply List.map_congr_left
      intro s _
      simp only [Function.comp_apply]
      split
      · rename_i hcond
        rw [hg]
        exact (beq_iff_eq.mp hcond).symm
      · rfl
    have hsub2 : ∀ u ∈ l, u ∈ store.map (fun s => if s.id == t.id then g t else s) := by
      intro u hu
      have : (fun s => if s.id == t.id then g t else s) u = u := by
        simp [hlid u hu]
      exact this ▸ List.mem_map_of_mem _ (hsub u (List.mem_cons_of_mem t hu))
    rw [List.foldl_cons, hrepl,
      ih _ (hids2 ▸ hstore) hndl hsub2 (fun u hu => hstable u (List.mem_cons_of_mem t hu)),
      List.map_map]
    apply List.map_congr_left
    intro s hs
    simp only [Function.comp_apply]
    by_cases hid : s.id = t.id
    · have hst : s = t :=
        List.inj_on_of_nodup_map hstore hs htmem hid
      subst hst
      have hanyl : l.any (fun u => u.id == s.id) = false := by
        rw [List.any_eq_false]
        intro u hu
        simp [hlid u hu]
      simp [List.any_cons, hg, hanyl]
    · have hc1 : (s.id == t.id) = false := by simp [hid]
      have hc2 : (t.id == s.id) = false := by simp [Ne.symm hid]
      simp [List.any_cons, hc1, hc2]

theorem find_valid_sublist (now : Int) (uid : String)
    (store : List AuthenticationToken) :
    List.Sublist (find_valid_tokens_by_user now uid store) store := by
  unfold find_valid_tokens_by_user find_by_user_id
  by_cases huid : uid = ""
  · simp [huid]
  · simp only [huid, if_neg, ite_false]
    exact (List.filter_sublist _).trans (List.filter_sublist _)

theorem mem_find_valid_iff (now : Int) (uid : String)
    (store : List AuthenticationToken) (t : AuthenticationToken)
    (ht : t ∈ store) :
    t ∈ find_valid_tokens_by_user now uid store
      ↔ ((if uid = "" then false else t.user_id == py_strip uid) && is_valid now t) = true := by
  unfold find_valid_tokens_by_user find_by_user_id
  by_cases huid : uid = "" <;> simp [huid, List.mem_filter, ht, and_comm]

theorem any_id_find_valid (now : Int) (uid : String)
    (store : List AuthenticationToken)
    (hids : (store.map (fun t => t.id)).Nodup)
    (t : AuthenticationToken) (ht : t ∈ store) :
    (find_valid_tokens_by_user now uid store).any (fun u => u.id == t.id)
      = ((if uid = "" then false else t.user_id == py_strip uid) && is_valid now t) := by
  by_cases hmem : t ∈ find_valid_tokens_by_user now uid store
  · rw [(mem_find_valid_iff now uid store t ht).mp hmem, List.any_eq_true]
    exact ⟨t, hmem, by simp⟩
  · have hr : ((if uid = "" then false else t.user_id == py_strip uid) && is_valid now t) = false := by
      cases hb : ((if uid = "" then false else t.user_id == py_strip uid) && is_valid now t)
      · rfl
      · exact absurd ((mem_find_valid_iff now uid store t ht).mpr hb) hmem
    rw [hr, List.any_eq_false]
    intro u hu
    simp only [beq_iff_eq]
    intro he
    have hus : u ∈ store := (find_valid_sublist now uid store).subset hu
    have : u = t := List.inj_on_of_nodup_map hids hus ht he
    exact hmem (this ▸ hu)

/-- `revoke_user_tokens` over a duplicate-free store: it returns the number
of currently-valid tokens of the user, and the new store is the old one
with exactly those tokens revoked. -/
theorem revoke_user_tokens_eq_map (now : Int) (uid reason : String)
    (store : List AuthenticationToken)
    (hids : (store.map (fun t => t.id)).Nodup) :
    revoke_user_tokens now uid reason store
      = ((find_valid_tokens_by_user now uid store).length,
         store.map (fun t =>
           if (find_valid_tokens_by_user now uid store).any (fun u => u.id == t.id)
           then revoke now reason t else t)) := by
  have hsub := find_valid_sublist now uid store
  have hnd : ((find_valid_tokens_by_user now uid store).map (fun t => t.id)).Nodup :=
    (hids.sublist (hsub.map (fun t => t.id)))
  have hstable : ∀ t ∈ find_valid_tokens_by_user now uid store,
      { revoke now reason t with updated_at := now } = revoke now reason t := by
    intro t htv
    have hval : is_valid now t = true := by
      have := List.mem_filter.mp htv
      exact this.2
    have hnr : t.is_revoked = false := by
      unfold is_valid at hval
      by_cases hb : t.is_revoked
      · rw [hb] at hval
        simp at hval
      · simpa using hb
    simp [revoke, hnr]
  rw [revoke_user_tokens, revoke_fold_split,
    foldl_save_eq_map now (revoke now reason) (revoke_id now reason) _ store hids hnd
      (fun t htv => hsub.subset htv) hstable]
  simp

/-! ## Helper lemmas about the authentication service -/

theorem find_user_by_email_mem (email : String) (users : List User) (u : User)
    (h : find_user_by_email email users = some u) : u ∈ users := by
  unfold find_user_by_email at h
  split at h
  · exact absurd h (by simp)
  · exact List.mem_of_find?_eq_some h

theorem log_auth_event_users (b : Bool) (s : ServiceState) :
    (log_auth_event b s).users = s.users := by
  cases b <;> simp [log_auth_event]

/-- Every path of `authenticate_user` audits only through the swallowing
`_log_authentication_event`, so the outcome and the user/credential/token
stores never depend on whether the audit save raises. -/
theorem authenticate_user_audit_invariant (cp : String → String → Bool)
    (h : String → String) (genTok tokId : String) (now : Int)
    (email password : String) (st : ServiceState) :
    (authenticate_user cp h genTok tokId true now email password st).1
      = (authenticate_user cp h genTok tokId false now email password st).1 ∧
    (authenticate_user cp h genTok tokId true now email password st).2.users
      = (authenticate_user cp h genTok tokId false now email password st).2.users ∧
    (authenticate_user cp h genTok tokId true now email password st).2.creds
      = (authenticate_user cp h genTok tokId false now email password st).2.creds ∧
    (authenticate_user cp h genTok tokId true now email password st).2.tokens
      = (authenticate_user cp h genTok tokId false now email password st).2.tokens := by
  unfold authenticate_user
  cases hf : find_user_by_email email st.users with
  | none => simp [log_auth_event]
  | some user =>
    cases hact : user.is_active with
    | false => simp [hf, hact, log_auth_event]
    | true =>
      cases hc : find_cred_by_user_id user.id st.creds with
      | none => simp [hf, hact, hc, log_auth_event]
      | some cred =>
        rcases hv : verify_password cp now cred password with ⟨res, cred2⟩
        cases res with
        | error e =>
          cases e
          simp [hf, hact, hc, hv, log_auth_event]
        | ok b =>
          cases b with
          | false => simp [hf, hact, hc, hv, log_auth_event]
          | true =>
            by_cases hg : genTok = "" <;>
              simp [hf, hact, hc, hv, hg, log_auth_event]

/-- In `logout_user` the audit record is saved directly inside the
operation's generic handler: the revocation is persisted either way, but a
failing audit save turns an otherwise-successful logout into the generic
internal-error `ValidationException`; validation failures are unaffected. -/
theorem logout_user_audit_behavior (h : String → String) (now : Int)
    (token : String) (st : ServiceState) :
    (logout_user h true now token st).2.tokens
      = (logout_user h false now token st).2.tokens ∧
    (∀ info, validate_token h now token st = .ok info →
        (logout_user h true now token st).1 = .error "Logout failed due to internal error" ∧
        (logout_user h false now token st).1 = .ok ()) ∧
    (∀ e, validate_token h now token st = .error e →
        logout_user h true now token st = (.error e, st) ∧
        logout_user h false now token st = (.error e, st)) := by
  refine ⟨?_, ?_, ?_⟩
  · cases hv : validate_token h now token st with
    | error e => simp [logout_user, hv]
    | ok info =>
      cases hfind : find_by_token_hash (h token) st.tokens <;>
        simp [logout_user, hv, hfind]
  · intro info hv
    cases hfind : find_by_token_hash (h token) st.tokens <;>
      simp [logout_user, hv, hfind]
  · intro e hv
    simp [logout_user, hv]

/-- In `revoke_all_user_tokens` the audit record is saved with no handler
at all: the revocations are persisted either way, but a failing audit save
escapes the operation as-is instead of the count being returned. -/
theorem revoke_all_audit_behavior (now : Int) (uid reason : String)
    (st : ServiceState) :
    (revoke_all_user_tokens true now uid reason st).1 = .error () ∧
    (revoke_all_user_tokens false now uid reason st).1
      = .ok (revoke_user_tokens now uid reason st.tokens).1 ∧
    (revoke_all_user_tokens true now uid reason st).2.tokens
      = (revoke_all_user_tokens false now uid reason st).2.tokens :=
  ⟨rfl, rfl, rfl⟩

/-- C1 counterexample: the claim counts every failed `verify_password`
call toward lockout, but a call with an empty password is a failed call
(it returns failure) that is rejected by the early `if not password`
guard before the bcrypt check and does not increment the counter — so
five consecutive failed calls, all with an empty password, leave a fresh
record entirely unchanged (each of the five runs on the same unchanged
record and returns failure) and in particular unlocked, not locked for
30 minutes. -/
theorem C1_empty_password_counterexample :
    (verify_password (fun p hsh => p == hsh) 1
        ⟨"u1", "secret1", 0, none, false, 0⟩ "").1 = Except.ok false ∧
    fold_verifies (fun p hsh => p == hsh) [(1, ""), (2, ""), (3, ""), (4, ""), (5, "")]
        ⟨"u1", "secret1", 0, none, false, 0⟩
      = ⟨"u1", "secret1", 0, none, false, 0⟩ ∧
    (fold_verifies (fun p hsh => p == hsh) [(1, ""), (2, ""), (3, ""), (4, ""), (5, "")]
        ⟨"u1", "secret1", 0, none, false, 0⟩).account_locked_until = none ∧
    (fold_verifies (fun p hsh => p == hsh) [(1, ""), (2, ""), (3, ""), (4, ""), (5, "")]
        ⟨"u1", "secret1", 0, none, false, 0⟩).failed_login_attempts = 0 :=
  ⟨rfl, rfl, rfl, rfl⟩

/-- C1 (amended): after `MAX_FAILED_ATTEMPTS = 5` consecutive failed
`verify_password` calls with **nonempty** (mismatching) passwords a fresh
record becomes locked until exactly the time of the fifth failure plus
`LOCKOUT_DURATION` (30 minutes); while a record is locked and before its
lockout expiry every `verify_password` call raises the locked error and
mutates nothing; and a call at or after the expiry behaves exactly as on
the record with the failed-attempt counter reset to 0, re-evaluating the
presented password from there.  (Failed calls with an empty password do
not increment the counter and so never count toward lockout, as the
counterexample shows.) -/
theorem C1_lockout_machine (checkpw : String → String → Bool)
    (c0 : UserCredentials) (t1 t2 t3 t4 t5 : Int) (p1 p2 p3 p4 p5 : String)
    (h0 : c0.failed_login_attempts = 0)
    (hu : c0.account_locked_until = none)
    (hp1 : p1 ≠ "") (hp2 : p2 ≠ "") (hp3 : p3 ≠ "") (hp4 : p4 ≠ "") (hp5 : p5 ≠ "")
    (hm1 : checkpw p1 c0.password_hash = false)
    (hm2 : checkpw p2 c0.password_hash = false)
    (hm3 : checkpw p3 c0.password_hash = false)
    (hm4 : checkpw p4 c0.password_hash = false)
    (hm5 : checkpw p5 c0.password_hash = false) :
    (fold_verifies checkpw [(t1, p1), (t2, p2), (t3, p3), (t4, p4), (t5, p5)]
        c0).account_locked_until = some (t5 + LOCKOUT_DURATION_SECONDS) ∧
    (∀ (c : UserCredentials) (u t : Int) (pw : String),
        c.account_locked_until = some u → t < u →
        verify_password checkpw t c pw = (.error .accountLocked, c)) ∧
    (∀ (c : UserCredentials) (u t : Int) (pw : String),
        c.account_locked_until = some u → u ≤ t →
        (reset_failed_attempts t c).failed_login_attempts = 0 ∧
        verify_password checkpw t c pw
          = verify_password checkpw t (reset_failed_attempts t c) pw) := by
  refine ⟨?_, ?_, ?_⟩
  · have e1 : (verify_password checkpw t1 c0 p1).2
        = { c0 with failed_login_attempts := 1, updated_at := t1 } := by
      simp [verify_password, is_account_locked, hu, hp1, hm1,
        increment_failed_attempts, h0, MAX_FAILED_ATTEMPTS]
    have e2 : (verify_password checkpw t2 { c0 with failed_login_attempts := 1, updated_at := t1 } p2).2
        = { c0 with failed_login_attempts := 2, updated_at := t2 } := by
      simp [verify_password, is_account_locked, hu, hp2, hm2,
        increment_failed_attempts, MAX_FAILED_ATTEMPTS]
    have e3 : (verify_password checkpw t3 { c0 with failed_login_attempts := 2, updated_at := t2 } p3).2
        = { c0 with failed_login_attempts := 3, updated_at := t3 } := by
      simp [verify_password, is_account_locked, hu, hp3, hm3,
        increment_failed_attempts, MAX_FAILED_ATTEMPTS]
    have e4 : (verify_password checkpw t4 { c0 with failed_login_attempts := 3, updated_at := t3 } p4).2
        = { c0 with failed_login_attempts := 4, updated_at := t4 } := by
      simp [verify_password, is_account_locked, hu, hp4, hm4,
        increment_failed_attempts, MAX_FAILED_ATTEMPTS]
    have e5 : (verify_password checkpw t5 { c0 with failed_login_attempts := 4, updated_at := t4 } p5).2
        = { c0 with failed_login_attempts := 5
                    account_locked_until := some (t5 + LOCKOUT_DURATION_SECONDS)
                    updated_at := t5 } := by
      simp [verify_password, is_account_locked, hu, hp5, hm5,
        increment_failed_attempts, MAX_FAILED_ATTEMPTS]
    simp [fold_verifies, e1, e2, e3, e4, e5]
  · intro c u t pw hcu ht
    have hlt : ¬ t ≥ u := by omega
    simp [verify_password, is_account_locked, hcu, hlt]
  · intro c u t pw hcu ht
    refine ⟨rfl, ?_⟩
    have hge : t ≥ u := ht
    simp [verify_password, is_account_locked, hcu, hge, reset_failed_attempts]

/-- Witness for C1 at concrete inputs: stored hash `"secret1"`, equality as
the password check, five wrong attempts at times 1..5. -/
theorem C1_lockout_machine_witness :
    (fold_verifies (fun p hsh => p == hsh)
        [(1, "wrongA"), (2, "wrongB"), (3, "wrongC"), (4, "wrongD"), (5, "wrongE")]
        ⟨"u1", "secret1", 0, none, false, 0⟩).account_locked_until
      = some (5 + LOCKOUT_DURATION_SECONDS) ∧
    (∀ (c : UserCredentials) (u t : Int) (pw : String),
        c.account_locked_until = some u → t < u →
        verify_password (fun p hsh => p == hsh) t c pw = (.error .accountLocked, c)) ∧
    (∀ (c : UserCredentials) (u t : Int) (pw : String),
        c.account_locked_until = some u → u ≤ t →
        (reset_failed_attempts t c).failed_login_attempts = 0 ∧
        verify_password (fun p hsh => p == hsh) t c pw
          = verify_password (fun p hsh => p == hsh) t (reset_failed_attempts t c) pw) :=
  C1_lockout_machine (fun p hsh => p == hsh)
    ⟨"u1", "secret1", 0, none, false, 0⟩ 1 2 3 4 5
    "wrongA" "wrongB" "wrongC" "wrongD" "wrongE"
    rfl rfl (by decide) (by decide) (by decide) (by decide) (by decide)
    (by decide) (by decide) (by decide) (by decide) (by decide)

/-- C6 counterexample: the claim quantifies over every password that does
not match the stored hash, but an empty password is rejected by the early
`if not password` guard before the bcrypt check, so it returns failure
without incrementing the counter (here: hash `"secret1"`, equality as the
password check, an empty presented password, counter 0 stays 0 instead of
becoming 1). -/
theorem C6_empty_password_counterexample :
    (fun p hsh => p == hsh) "" "secret1" = false ∧
    (verify_password (fun p hsh => p == hsh) 10
        ⟨"u1", "secret1", 0, none, false, 0⟩ "").1 = Except.ok false ∧
    ¬ ((verify_password (fun p hsh => p == hsh) 10
        ⟨"u1", "secret1", 0, none, false, 0⟩ "").2.failed_login_attempts = 0 + 1) :=
  ⟨rfl, rfl, by decide⟩

/-- C6 (amended): for every credential record with no lockout-expiry set
and failed-attempt counter `k`, and every **nonempty** password that does
not match the stored hash, `verify_password` returns failure without
throwing and sets the counter to `k + 1`; if `k + 1` reaches
`MAX_FAILED_ATTEMPTS` (5) the record transitions to locked with lockout
expiry `now` + 30 minutes, otherwise it stays unlocked with counter
`k + 1`. -/
theorem C6_failed_attempt_increments (checkpw : String → String → Bool)
    (now : Int) (c : UserCredentials) (pw : String) (k : Nat)
    (hk : c.failed_login_attempts = k)
    (hu : c.account_locked_until = none)
    (hpw : pw ≠ "")
    (hm : checkpw pw c.password_hash = false) :
    (verify_password checkpw now c pw).1 = .ok false ∧
    (verify_password checkpw now c pw).2.failed_login_attempts = k + 1 ∧
    (k + 1 ≥ MAX_FAILED_ATTEMPTS →
      (verify_password checkpw now c pw).2.account_locked_until
        = some (now + LOCKOUT_DURATION_SECONDS)) ∧
    (k + 1 < MAX_FAILED_ATTEMPTS →
      (verify_password checkpw now c pw).2.account_locked_until = none) := by
  have hv : verify_password checkpw now c pw
      = (.ok false, increment_failed_attempts now c) := by
    simp [verify_password, is_account_locked, hu, hpw, hm]
  by_cases hge : k + 1 ≥ MAX_FAILED_ATTEMPTS
  · refine ⟨by simp [hv], ?_, ?_, ?_⟩
    · simp [hv, increment_failed_attempts, hk, hge]
    · intro _
      simp [hv, increment_failed_attempts, hk, hge]
    · intro hlt
      omega
  · have hlt : ¬ (c.failed_login_attempts + 1 ≥ MAX_FAILED_ATTEMPTS) := by omega
    refine ⟨by simp [hv], ?_, ?_, ?_⟩
    · simp [hv, increment_failed_attempts, hk]
      split <;> rfl
    · intro hge2
      omega
    · intro _
      simp [hv, increment_failed_attempts, hlt, hu]

/-- Witness for C6 (amended) at concrete inputs: counter 3, wrong password
`"nope99"` against hash `"secret1"`, not yet reaching the lockout bound. -/
theorem C6_failed_attempt_increments_witness :
    (verify_password (fun p hsh => p == hsh) 50
        ⟨"u1", "secret1", 3, none, false, 0⟩ "nope99").1 = .ok false ∧
    (verify_password (fun p hsh => p == hsh) 50
        ⟨"u1", "secret1", 3, none, false, 0⟩ "nope99").2.failed_login_attempts = 3 + 1 ∧
    (3 + 1 ≥ MAX_FAILED_ATTEMPTS →
      (verify_password (fun p hsh => p == hsh) 50
        ⟨"u1", "secret1", 3, none, false, 0⟩ "nope99").2.account_locked_until
        = some (50 + LOCKOUT_DURATION_SECONDS)) ∧
    (3 + 1 < MAX_FAILED_ATTEMPTS →
      (verify_password (fun p hsh => p == hsh) 50
        ⟨"u1", "secret1", 3, none, false, 0⟩ "nope99").2.account_locked_until = none) :=
  C6_failed_attempt_increments (fun p hsh => p == hsh) 50
    ⟨"u1", "secret1", 3, none, false, 0⟩ "nope99" 3
    rfl rfl (by decide) (by decide)

/-- C7: for every credential record that is not locked at the time of the
call, a `verify_password` call with the matching (necessarily nonempty)
password returns success, resets the failed-attempt counter to 0, and
clears the lockout-expiry timestamp. -/
theorem C7_success_resets_counter (checkpw : String → String → Bool)
    (now : Int) (c : UserCredentials) (pw : String)
    (hnl : (is_account_locked now c).1 = false)
    (hpw : pw ≠ "")
    (hm : checkpw pw c.password_hash = true) :
    (verify_password checkpw now c pw).1 = .ok true ∧
    (verify_password checkpw now c pw).2.failed_login_attempts = 0 ∧
    (verify_password checkpw now c pw).2.account_locked_until = none := by
  cases hcu : c.account_locked_until with
  | none =>
    simp [verify_password, is_account_locked, hcu, hpw, hm, reset_failed_attempts]
  | some u =>
    by_cases hge : now ≥ u
    · simp [verify_password, is_account_locked, hcu, hge, hpw,
        reset_failed_attempts, hm]
    · simp [is_account_locked, hcu, hge] at hnl

/-- Witness for C7 at concrete inputs: counter 4 with no lockout pending,
matching password `"secret1"`. -/
theorem C7_success_resets_counter_witness :
    (verify_password (fun p hsh => p == hsh) 70
        ⟨"u1", "secret1", 4, none, false, 0⟩ "secret1").1 = .ok true ∧
    (verify_password (fun p hsh => p == hsh) 70
        ⟨"u1", "secret1", 4, none, false, 0⟩ "secret1").2.failed_login_attempts = 0 ∧
    (verify_password (fun p hsh => p == hsh) 70
        ⟨"u1", "secret1", 4, none, false, 0⟩ "secret1").2.account_locked_until = none :=
  C7_success_resets_counter (fun p hsh => p == hsh) 70
    ⟨"u1", "secret1", 4, none, false, 0⟩ "secret1"
    (by decide) (by decide) (by decide)

/-- C10: for every credential record with no lockout-expiry set, calling
`verify_password` with an empty password returns false and leaves the
record entirely unchanged — the counter is not incremented, the lockout
expiry is not set, and even `updated_at` is untouched, so empty-password
attempts never count toward lockout. -/
theorem C10_empty_password_no_mutation (checkpw : String → String → Bool)
    (now : Int) (c : UserCredentials)
    (hu : c.account_locked_until = none) :
    verify_password checkpw now c "" = (.ok false, c) := by
  simp [verify_password, is_account_locked, hu]

/-- Witness for C10 at concrete inputs. -/
theorem C10_empty_password_no_mutation_witness :
    verify_password (fun p hsh => p == hsh) 10
        ⟨"u1", "secret1", 2, none, false, 0⟩ ""
      = (.ok false, ⟨"u1", "secret1", 2, none, false, 0⟩) :=
  C10_empty_password_no_mutation (fun p hsh => p == hsh) 10
    ⟨"u1", "secret1", 2, none, false, 0⟩ rfl

/-- C2 counterexample: the claim quantifies over every presented token
string, but `verify_token` hashes the presented token through
`_hash_token`, which raises `ValidationException("Token is required")` on
an empty string — so on a non-revoked, non-expired record an empty
presented token raises instead of returning the hash comparison the claim
predicts. -/
theorem C2_empty_token_counterexample :
    verify_token (fun s => s) 0 ⟨"t1", "u1", "tkhash", 100, false, none, none, 0⟩ ""
        = .error (.validationError "Token is required") ∧
    verify_token (fun s => s) 0 ⟨"t1", "u1", "tkhash", 100, false, none, none, 0⟩ ""
        ≠ .ok ((fun s => s) "" == "tkhash") := by
  constructor
  · rfl
  · intro hc
    simp [verify_token, hash_token, is_expired] at hc

/-- C2 (amended): for every token record and every **nonempty** presented
token string, `verify_token` checks revocation first — a revoked record
fails with the revoked-token error regardless of expiry; otherwise at or
past `expires_at` it returns false without raising; otherwise its result
is whether the hash of the presented token equals the stored `token_hash`.
(An empty presented token instead raises the validation error, as the
counterexample shows.) -/
theorem C2_verify_token_checks (h : String → String) (now : Int)
    (t : AuthenticationToken) (token : String) (hne : token ≠ "") :
    verify_token h now t token
      = (if t.is_revoked then .error (.revokedToken t.revoked_reason)
         else if now ≥ t.expires_at then .ok false
         else .ok (h token == t.token_hash)) := by
  simp [verify_token, is_expired, hash_token, hne]

/-- Witness for C2 at concrete inputs: non-revoked, unexpired record,
matching presented token. -/
theorem C2_verify_token_checks_witness :
    ("tok1" : String) ≠ "" ∧
    verify_token (fun s => s) 0 ⟨"t1", "u1", "tok1", 100, false, none, none, 0⟩ "tok1"
      = .ok true := by
  refine ⟨by decide, ?_⟩
  rw [C2_verify_token_checks (fun s => s) 0
    ⟨"t1", "u1", "tok1", 100, false, none, none, 0⟩ "tok1" (by decide)]
  rfl

/-- C4: revocation is idempotent and permanent — `revoke` on an
already-revoked record is a no-op preserving the original revocation
timestamp and reason; `revoke` always leaves its result revoked;
`extend_expiry` on a revoked record raises and leaves the record
unchanged and never changes the revocation flag of any record; and bulk
revocation (`revoke_user_tokens` over a duplicate-free store) keeps every
already-revoked record untouched in the store. -/
theorem C4_revocation_idempotent_permanent (now d : Int) (reason : String)
    (t : AuthenticationToken) (hrev : t.is_revoked = true) :
    revoke now reason t = t ∧
    (∀ (m : Int) (r : String) (s : AuthenticationToken), (revoke m r s).is_revoked = true) ∧
    extend_expiry now d t
      = (.error (.validationError "Cannot extend expiry of revoked token"), t) ∧
    (∀ (m e : Int) (s : AuthenticationToken),
        ((extend_expiry m e s).2).is_revoked = s.is_revoked) ∧
    (∀ (m : Int) (uid r : String) (store : List AuthenticationToken),
        (store.map (fun u => u.id)).Nodup →
        ∀ s ∈ store, s.is_revoked = true → s ∈ (revoke_user_tokens m uid r store).2) := by
  refine ⟨by simp [revoke, hrev], ?_, by simp [extend_expiry, hrev], ?_, ?_⟩
  · intro m r s
    unfold revoke
    split
    · rename_i hb
      exact hb
    · rfl
  · intro m e s
    unfold extend_expiry
    split <;> rfl
  · intro m uid r store hnd s hsmem hsrev
    rw [revoke_user_tokens_eq_map m uid r store hnd]
    have hval : is_valid m s = false := by simp [is_valid, hsrev]
    have hcond : (find_valid_tokens_by_user m uid store).any (fun u => u.id == s.id) = false := by
      rw [any_id_find_valid m uid store hnd s hsmem, hval, Bool.and_false]
    have hfix : (fun u =>
        if (find_valid_tokens_by_user m uid store).any (fun v => v.id == u.id)
        then revoke m r u else u) s = s := by
      simp [hcond]
    exact hfix ▸ List.mem_map_of_mem _ hsmem

/-- Witness for C4 at a concrete revoked record. -/
theorem C4_revocation_idempotent_permanent_witness :
    (⟨"t1", "u1", "h1", 100, true, some 5, some "breach", 5⟩
        : AuthenticationToken).is_revoked = true ∧
    (revoke 50 "again" ⟨"t1", "u1", "h1", 100, true, some 5, some "breach", 5⟩
        = ⟨"t1", "u1", "h1", 100, true, some 5, some "breach", 5⟩ ∧
      (∀ (m : Int) (r : String) (s : AuthenticationToken), (revoke m r s).is_revoked = true) ∧
      extend_expiry 50 10 ⟨"t1", "u1", "h1", 100, true, some 5, some "breach", 5⟩
        = (.error (.validationError "Cannot extend expiry of revoked token"),
           ⟨"t1", "u1", "h1", 100, true, some 5, some "breach", 5⟩) ∧
      (∀ (m e : Int) (s : AuthenticationToken),
          ((extend_expiry m e s).2).is_revoked = s.is_revoked) ∧
      (∀ (m : Int) (uid r : String) (store : List AuthenticationToken),
          (store.map (fun u => u.id)).Nodup →
          ∀ s ∈ store, s.is_revoked = true → s ∈ (revoke_user_tokens m uid r store).2)) :=
  ⟨rfl, C4_revocation_idempotent_permanent 50 10 "again"
    ⟨"t1", "u1", "h1", 100, true, some 5, some "breach", 5⟩ rfl⟩

/-- C5 counterexample: the claim says `extend_expiry` strictly increases
`expires_at` for **every** additional-time argument, but the code simply
adds the (possibly zero or negative) timedelta — with `additional_time`
= −5 on a non-revoked record the expiry is shortened from 100 to 95. -/
theorem C5_negative_delta_counterexample :
    (⟨"t1", "u1", "h1", 100, false, none, none, 0⟩
        : AuthenticationToken).is_revoked = false ∧
    (extend_expiry 50 (-5) ⟨"t1", "u1", "h1", 100, false, none, none, 0⟩).1 = .ok () ∧
    (extend_expiry 50 (-5) ⟨"t1", "u1", "h1", 100, false, none, none, 0⟩).2.expires_at = 95 ∧
    ¬ ((⟨"t1", "u1", "h1", 100, false, none, none, 0⟩ : AuthenticationToken).expires_at
        < (extend_expiry 50 (-5) ⟨"t1", "u1", "h1", 100, false, none, none, 0⟩).2.expires_at) := by
  refine ⟨rfl, rfl, rfl, ?_⟩
  decide

/-- C5 (amended): `extend_expiry` fails on a revoked record leaving it
unchanged; on a non-revoked record it sets `expires_at` to
`expires_at + additional_time`, which is a strict increase exactly for
positive additional time (a non-positive argument does not increase the
expiry, as the counterexample shows). -/
theorem C5_extend_expiry_behavior (now d : Int) (t : AuthenticationToken) :
    extend_expiry now d t
      = (if t.is_revoked then
           (.error (.validationError "Cannot extend expiry of revoked token"), t)
         else (.ok (), { t with expires_at := t.expires_at + d, updated_at := now })) ∧
    (t.is_revoked = false → 0 < d →
        t.expires_at < (extend_expiry now d t).2.expires_at) := by
  constructor
  · rfl
  · intro hnr hd
    simp [extend_expiry, hnr]
    omega

/-- Witness for C5 at a concrete non-revoked record with positive
additional time. -/
theorem C5_extend_expiry_behavior_witness :
    (⟨"t1", "u1", "h1", 100, false, none, none, 0⟩
        : AuthenticationToken).is_revoked = false ∧
    (0 : Int) < 7 ∧
    (⟨"t1", "u1", "h1", 100, false, none, none, 0⟩
        : AuthenticationToken).expires_at
      < (extend_expiry 50 7 ⟨"t1", "u1", "h1", 100, false, none, none, 0⟩).2.expires_at :=
  ⟨rfl, by decide,
    (C5_extend_expiry_behavior 50 7 ⟨"t1", "u1", "h1", 100, false, none, none, 0⟩).2
      rfl (by decide)⟩

/-- C9: over a duplicate-free store, `revoke_user_tokens` always succeeds,
returning the number of the user's currently-valid tokens (0 if none),
and the resulting store is the old one with exactly those currently-valid
tokens revoked (each exactly once, with this reason) — already-revoked or
expired tokens, and other users' tokens, are untouched and uncounted. -/
theorem C9_revoke_user_tokens_exact (now : Int) (uid reason : String)
    (store : List AuthenticationToken)
    (hids : (store.map (fun t => t.id)).Nodup) :
    (revoke_user_tokens now uid reason store).1
        = (find_valid_tokens_by_user now uid store).length ∧
    (revoke_user_tokens now uid reason store).2
        = store.map (fun t =>
            if (if uid = "" then false else t.user_id == py_strip uid) && is_valid now t
            then revoke now reason t else t) := by
  rw [revoke_user_tokens_eq_map now uid reason store hids]
  refine ⟨rfl, ?_⟩
  apply List.map_congr_left
  intro t ht
  rw [any_id_find_valid now uid store hids t ht]

/-- Witness for C9 at a concrete store: for user `"u1"` at time 10, one
valid token, one already revoked, one expired, and another user's valid
token — exactly one token is revoked and counted. -/
theorem C9_revoke_user_tokens_exact_witness :
    (([⟨"t1", "u1", "h1", 100, false, none, none, 0⟩,
       ⟨"t2", "u1", "h2", 100, true, some 3, some "old", 3⟩,
       ⟨"t3", "u1", "h3", 5, false, none, none, 0⟩,
       ⟨"t4", "u2", "h4", 100, false, none, none, 0⟩]
        : List AuthenticationToken).map (fun t => t.id)).Nodup ∧
    (revoke_user_tokens 10 "u1" "cleanup"
        [⟨"t1", "u1", "h1", 100, false, none, none, 0⟩,
         ⟨"t2", "u1", "h2", 100, true, some 3, some "old", 3⟩,
         ⟨"t3", "u1", "h3", 5, false, none, none, 0⟩,
         ⟨"t4", "u2", "h4", 100, false, none, none, 0⟩]).1
      = (find_valid_tokens_by_user 10 "u1"
          [⟨"t1", "u1", "h1", 100, false, none, none, 0⟩,
           ⟨"t2", "u1", "h2", 100, true, some 3, some "old", 3⟩,
           ⟨"t3", "u1", "h3", 5, false, none, none, 0⟩,
           ⟨"t4", "u2", "h4", 100, false, none, none, 0⟩]).length ∧
    (revoke_user_tokens 10 "u1" "cleanup"
        [⟨"t1", "u1", "h1", 100, false, none, none, 0⟩,
         ⟨"t2", "u1", "h2", 100, true, some 3, some "old", 3⟩,
         ⟨"t3", "u1", "h3", 5, false, none, none, 0⟩,
         ⟨"t4", "u2", "h4", 100, false, none, none, 0⟩]).2
      = ([⟨"t1", "u1", "h1", 100, false, none, none, 0⟩,
          ⟨"t2", "u1", "h2", 100, true, some 3, some "old", 3⟩,
          ⟨"t3", "u1", "h3", 5, false, none, none, 0⟩,
          ⟨"t4", "u2", "h4", 100, false, none, none, 0⟩]
            : List AuthenticationToken).map (fun t =>
          if (if "u1" = "" then false else t.user_id == py_strip "u1") && is_valid 10 t
          then revoke 10 "cleanup" t else t) :=
  ⟨by decide,
    C9_revoke_user_tokens_exact 10 "u1" "cleanup"
      [⟨"t1", "u1", "h1", 100, false, none, none, 0⟩,
       ⟨"t2", "u1", "h2", 100, true, some 3, some "old", 3⟩,
       ⟨"t3", "u1", "h3", 5, false, none, none, 0⟩,
       ⟨"t4", "u2", "h4", 100, false, none, none, 0⟩] (by decide)⟩

/-- C3 counterexample: `authenticate_user` calls `update_last_login`
*before* building the result bundle and reads `user.last_login_at` off the
mutated user object, so a user whose previous last login was at time 100,
authenticating successfully at time 200, gets `last_login_at = 200` (the
new value) in the result — not the previous value 100 the claim
predicts. -/
theorem C3_previous_last_login_counterexample :
    (authenticate_user (fun p hsh => p == hsh) (fun s => s) "jwt1" "tid1" false 200
        "a@b.c" "secret1"
        ⟨[⟨"u1", "a@b.c", "Alice", "architect", true, some 100, 0⟩],
         [⟨"u1", "secret1", 0, none, false, 0⟩], [], 0⟩).1
      = .ok ⟨"u1", "a@b.c", "Alice", "architect", "jwt1", 86600, false, some 200⟩ ∧
    (⟨"u1", "a@b.c", "Alice", "architect", true, some 100, 0⟩ : User).last_login_at
      = some 100 ∧
    some (200 : Int) ≠ some (100 : Int) := by
  refine ⟨rfl, rfl, by decide⟩

/-- C3 (amended): for every successful `authenticate_user` call, the
returned result bundle's last-login field is the **updated** last-login
timestamp (the time of this login), and the user record persisted by the
operation carries that same updated timestamp. -/
theorem C3_last_login_is_updated (checkpw : String → String → Bool)
    (h : String → String) (genTok tokId : String) (auditFails : Bool)
    (now : Int) (email password : String) (st : ServiceState)
    (r : AuthResult) (st2 : ServiceState)
    (hres : authenticate_user checkpw h genTok tokId auditFails now email password st
        = (.ok r, st2)) :
    r.last_login_at = some now ∧
    ∃ u ∈ st2.users, u.id = r.user_id ∧ u.last_login_at = some now := by
  unfold authenticate_user at hres
  split at hres
  · simp at hres
  · rename_i user heq
    split at hres
    · simp at hres
    · split at hres
      · simp at hres
      · rename_i cred hceq
        split at hres
      -- three arms of the verify_password match
        · simp at hres
        · simp at hres
        · rename_i cred2 hveq
          split at hres
          · simp at hres
          · simp only [Prod.mk.injEq, Except.ok.injEq] at hres
            obtain ⟨hr, hs⟩ := hres
            subst hr
            subst hs
            refine ⟨rfl, update_last_login now user, ?_, rfl, rfl⟩
            rw [log_auth_event_users]
            have humem : user ∈ st.users := find_user_by_email_mem email st.users user heq
            show update_last_login now user
                ∈ store_user (update_last_login now user) st.users
            unfold store_user
            apply List.mem_map.mpr
            refine ⟨user, humem, ?_⟩
            simp [update_last_login]

/-- Witness for C3 (amended) at the concrete successful login of the
counterexample's user. -/
theorem C3_last_login_is_updated_witness :
    authenticate_user (fun p hsh => p == hsh) (fun s => s) "jwt1" "tid1" false 200
        "a@b.c" "secret1"
        ⟨[⟨"u1", "a@b.c", "Alice", "architect", true, some 100, 0⟩],
         [⟨"u1", "secret1", 0, none, false, 0⟩], [], 0⟩
      = (.ok ⟨"u1", "a@b.c", "Alice", "architect", "jwt1", 86600, false, some 200⟩,
         ⟨[⟨"u1", "a@b.c", "Alice", "architect", true, some 200, 200⟩],
          [⟨"u1", "secret1", 0, none, false, 200⟩],
          [⟨"tid1", "u1", "jwt1", 86600, false, none, none, 200⟩], 1⟩) ∧
    ((⟨"u1", "a@b.c", "Alice", "architect", "jwt1", 86600, false, some 200⟩
        : AuthResult).last_login_at = some 200 ∧
      ∃ u ∈ (⟨[⟨"u1", "a@b.c", "Alice", "architect", true, some 200, 200⟩],
          [⟨"u1", "secret1", 0, none, false, 200⟩],
          [⟨"tid1", "u1", "jwt1", 86600, false, none, none, 200⟩], 1⟩
            : ServiceState).users,
        u.id = (⟨"u1", "a@b.c", "Alice", "architect", "jwt1", 86600, false, some 200⟩
            : AuthResult).user_id ∧
        u.last_login_at = some 200) :=
  ⟨rfl,
    C3_last_login_is_updated (fun p hsh => p == hsh) (fun s => s) "jwt1" "tid1"
      false 200 "a@b.c" "secret1"
      ⟨[⟨"u1", "a@b.c", "Alice", "architect", true, some 100, 0⟩],
       [⟨"u1", "secret1", 0, none, false, 0⟩], [], 0⟩
      ⟨"u1", "a@b.c", "Alice", "architect", "jwt1", 86600, false, some 200⟩
      ⟨[⟨"u1", "a@b.c", "Alice", "architect", true, some 200, 200⟩],
       [⟨"u1", "secret1", 0, none, false, 200⟩],
       [⟨"tid1", "u1", "jwt1", 86600, false, none, none, 200⟩], 1⟩
      rfl⟩

/-- C8 counterexample: only `_log_authentication_event` swallows audit-save
failures.  In `logout_user` a failing audit save flips an otherwise
successful logout into the generic internal-error `ValidationException`,
and in `revoke_all_user_tokens` the failure escapes the operation
directly — so an audit-write failure does change those operations'
outcomes. -/
theorem C8_audit_failure_counterexample :
    (logout_user (fun s => s) false 10 "tok1"
        ⟨[⟨"u1", "a@b.c", "Alice", "architect", true, some 100, 0⟩], [],
         [⟨"tid1", "u1", "tok1", 100, false, none, none, 0⟩], 0⟩).1 = .ok () ∧
    (logout_user (fun s => s) true 10 "tok1"
        ⟨[⟨"u1", "a@b.c", "Alice", "architect", true, some 100, 0⟩], [],
         [⟨"tid1", "u1", "tok1", 100, false, none, none, 0⟩], 0⟩).1
      = .error "Logout failed due to internal error" ∧
    (revoke_all_user_tokens true 10 "u1" "security"
        ⟨[⟨"u1", "a@b.c", "Alice", "architect", true, some 100, 0⟩], [],
         [⟨"tid1", "u1", "tok1", 100, false, none, none, 0⟩], 0⟩).1 = .error () :=
  ⟨rfl, rfl, rfl⟩

/-- C8 (amended): an audit-write failure is swallowed only by
`_log_authentication_event`, so `authenticate_user`'s outcome and stores
never depend on it; in `logout_user` the revocation is persisted either
way but a failing audit save converts a successful logout into the generic
internal-error `ValidationException` (validation failures are unaffected);
in `revoke_all_user_tokens` the revocations are persisted either way but
the audit failure propagates out of the operation unhandled. -/
theorem C8_audit_write_failures (cp : String → String → Bool)
    (h : String → String) (genTok tokId : String) (now : Int)
    (email password token uid reason : String) (st : ServiceState) :
    ((authenticate_user cp h genTok tokId true now email password st).1
        = (authenticate_user cp h genTok tokId false now email password st).1 ∧
      (authenticate_user cp h genTok tokId true now email password st).2.users
        = (authenticate_user cp h genTok tokId false now email password st).2.users ∧
      (authenticate_user cp h genTok tokId true now email password st).2.creds
        = (authenticate_user cp h genTok tokId false now email password st).2.creds ∧
      (authenticate_user cp h genTok tokId true now email password st).2.tokens
        = (authenticate_user cp h genTok tokId false now email password st).2.tokens) ∧
    ((logout_user h true now token st).2.tokens
        = (logout_user h false now token st).2.tokens ∧
      (∀ info, validate_token h now token st = .ok info →
          (logout_user h true now token st).1
            = .error "Logout failed due to internal error" ∧
          (logout_user h false now token st).1 = .ok ()) ∧
      (∀ e, validate_token h now token st = .error e →
          logout_user h true now token st = (.error e, st) ∧
          logout_user h false now token st = (.error e, st))) ∧
    ((revoke_all_user_tokens true now uid reason st).1 = .error () ∧
      (revoke_all_user_tokens false now uid reason st).1
        = .ok (revoke_user_tokens now uid reason st.tokens).1 ∧
      (revoke_all_user_tokens true now uid reason st).2.tokens
        = (revoke_all_user_tokens false now uid reason st).2.tokens) :=
  ⟨authenticate_user_audit_invariant cp h genTok tokId now email password st,
   logout_user_audit_behavior h now token st,
   revoke_all_audit_behavior now uid reason st⟩

/-- Witness for C8 (amended) at a concrete state with one valid token:
the logout validation succeeds, and the audit-failure outcomes are as the
theorem states. -/
theorem C8_audit_write_failures_witness :
    validate_token (fun s => s) 10 "tok1"
        ⟨[⟨"u1", "a@b.c", "Alice", "architect", true, some 100, 0⟩], [],
         [⟨"tid1", "u1", "tok1", 100, false, none, none, 0⟩], 0⟩
      = .ok ⟨"u1", "a@b.c", "Alice", "architect", "tid1", 100⟩ ∧
    ((logout_user (fun s => s) true 10 "tok1"
        ⟨[⟨"u1", "a@b.c", "Alice", "architect", true, some 100, 0⟩], [],
         [⟨"tid1", "u1", "tok1", 100, false, none, none, 0⟩], 0⟩).1
      = .error "Logout failed due to internal error" ∧
    (logout_user (fun s => s) false 10 "tok1"
        ⟨[⟨"u1", "a@b.c", "Alice", "architect", true, some 100, 0⟩], [],
         [⟨"tid1", "u1", "tok1", 100, false, none, none, 0⟩], 0⟩).1 = .ok ()) ∧
    (revoke_all_user_tokens true 10 "u1" "security"
        ⟨[⟨"u1", "a@b.c", "Alice", "architect", true, some 100, 0⟩], [],
         [⟨"tid1", "u1", "tok1", 100, false, none, none, 0⟩], 0⟩).1 = .error () :=
  ⟨rfl,
    (C8_audit_write_failures (fun p hsh => p == hsh) (fun s => s) "jwt1" "tid9" 10
      "a@b.c" "secret1" "tok1" "u1" "security"
      ⟨[⟨"u1", "a@b.c", "Alice", "architect", true, some 100, 0⟩], [],
       [⟨"tid1", "u1", "tok1", 100, false, none, none, 0⟩], 0⟩).2.1.2.1
      ⟨"u1", "a@b.c", "Alice", "architect", "tid1", 100⟩ rfl,
    (C8_audit_write_failures (fun p hsh => p == hsh) (fun s => s) "jwt1" "tid9" 10
      "a@b.c" "secret1" "tok1" "u1" "security"
      ⟨[⟨"u1", "a@b.c", "Alice", "architect", true, some 100, 0⟩], [],
       [⟨"tid1", "u1", "tok1", 100, false, none, none, 0⟩], 0⟩).2.2.1⟩

end AiDlc
